import Mathlib

/-!
Shallow embedding of the Auto-Guard synthetic data generators
(`src/utils/dataGenerators.ts`) and of the orchestration merge steps
(`LogTable` effect, `App.updateTrafficData`).

JavaScript `Math.random()` is modelled as an explicit stream
`r : Nat → Rat` of draws together with a running index that each
generated field consumes in the source's evaluation order.
Dates are modelled as integer millisecond timestamps.
Fields that may be `null`/`undefined` in the loosely typed source are
modelled as `Option`.
-/

/-- A traffic sample as produced by `generateTrafficData`:
`{ inbound, outbound, time }`, with `Option` fields because the log
synthesizer defends against missing fields. -/
structure Traffic where
  inbound : Option Int
  outbound : Option Int
  time : Option Int
deriving DecidableEq

/-- A log record as pushed by `generateLogData`. -/
structure LogEntry where
  timestamp : Int
  sourceIP : String
  sourcePort : Int
  destinationIP : String
  destinationPort : Int
  protocol : String
  type : String
  trafficVolume : Int
deriving DecidableEq

/-- A flow record `{ start, end }` as produced by `generateFlowData`. -/
structure FlowPair where
  start : String
  «end» : String
deriving DecidableEq

/-- The protocol catalog of `generateLogData`. -/
def protocols : List String := ["TCP", "UDP", "HTTP", "HTTPS", "FTP", "SMTP", "DNS"]

/-- The malicious-type catalog of `generateLogData`. -/
def maliciousTypes : List String :=
  ["악성(DDoS)", "악성(SQL Injection)", "악성(XSS)", "악성(Port Scan)",
   "악성(Brute Force)", "악성(Malware)", "악성(Phishing)",
   "악성(Command Injection)", "악성(File Inclusion)"]

/-- The country catalog of `generateFlowData`. -/
def countries : List String :=
  ["KR", "US", "CN", "JP", "UK", "DE", "FR", "IN", "BR", "AU"]

/-- One IPv4 octet: `Math.floor(Math.random() * 256)`. -/
def octet (q : Rat) : Int := ⌊q * 256⌋

/-- A dotted-quad string built from four draws, as in the template literals
of `generateLogData`. -/
def ipString (a b c d : Rat) : String :=
  toString (octet a) ++ "." ++ toString (octet b) ++ "." ++
    toString (octet c) ++ "." ++ toString (octet d)

/-- `generateTrafficData(count)`: `count` samples ending at `now`, spaced
2000 ms apart, inbound/outbound each `Math.floor(Math.random() * 30)`.
Iteration `i` consumes draws `2*i` (inbound) and `2*i+1` (outbound). -/
def generateTrafficData (r : Nat → Rat) (now : Int) (count : Int) : List Traffic :=
  (List.range count.toNat).map fun i =>
    { inbound := some ⌊r (2 * i) * 30⌋
      outbound := some ⌊r (2 * i + 1) * 30⌋
      time := some (now - (count - 1 - (i : Int)) * 2000) }

/-- `generateTrafficData()` with its default argument `count = 30`. -/
def generateTrafficDataDefault (r : Nat → Rat) (now : Int) : List Traffic :=
  generateTrafficData r now 30

/-- The three-way weighted classification of one log entry: draw `r k`;
below 0.6 it is Normal, below 0.9 a malicious subtype picked by a second
draw, otherwise Novel pattern. Returns the type string and the next
unused draw index. -/
def classify (r : Nat → Rat) (k : Nat) : String × Nat :=
  let randomValue := r k
  if randomValue < 0.6 then ("정상", k + 1)
  else if randomValue < 0.9 then
    (maliciousTypes.getD (⌊r (k + 1) * (maliciousTypes.length : Rat)⌋).toNat "", k + 2)
  else ("새로운 패턴", k + 1)

/-- One pushed log object of `generateLogData`, consuming draws in the
source's evaluation order: classification (1 or 2 draws), then source IP
(4), source port (1), destination IP (4), destination port (1),
protocol (1), traffic volume (1). -/
def mkLogEntry (r : Nat → Rat) (k : Nat) (ts : Int) : LogEntry × Nat :=
  let (ty, k1) := classify r k
  ({ timestamp := ts
     sourceIP := ipString (r k1) (r (k1 + 1)) (r (k1 + 2)) (r (k1 + 3))
     sourcePort := ⌊r (k1 + 4) * 65536⌋
     destinationIP := ipString (r (k1 + 5)) (r (k1 + 6)) (r (k1 + 7)) (r (k1 + 8))
     destinationPort := ⌊r (k1 + 9) * 65536⌋
     protocol := protocols.getD (⌊r (k1 + 10) * (protocols.length : Rat)⌋).toNat ""
     type := ty
     trafficVolume := ⌊r (k1 + 11) * 1000⌋ }, k1 + 12)

/-- The `for (i = 0; i < totalTraffic; i++)` loop: `n` entries in push
order, threading the draw index. -/
def mkLogs (r : Nat → Rat) (ts : Int) : Nat → Nat → List LogEntry × Nat
  | 0, k => ([], k)
  | n + 1, k =>
    let (e, k1) := mkLogEntry r k ts
    let (rest, k2) := mkLogs r ts n k1
    (e :: rest, k2)

/-- The body of the reducer for one traffic sample: a null sample is
skipped; otherwise `totalTraffic = (inbound || 0) + (outbound || 0)`
entries are generated, timestamped `traffic.time || now`. -/
def genSampleLogs (r : Nat → Rat) (now : Int) (k : Nat) (t : Option Traffic) :
    List LogEntry × Nat :=
  match t with
  | none => ([], k)
  | some traffic =>
    let totalTraffic : Int := traffic.inbound.getD 0 + traffic.outbound.getD 0
    mkLogs r (traffic.time.getD now) totalTraffic.toNat k

/-- The `trafficData.reduce` accumulation: per-sample logs concatenated
in sample order, threading the draw index. -/
def newLogsAux (r : Nat → Rat) (now : Int) :
    List (Option Traffic) → Nat → List LogEntry × Nat
  | [], k => ([], k)
  | t :: rest, k =>
    let (logs, k1) := genSampleLogs r now k t
    let (more, k2) := newLogsAux r now rest k1
    (logs ++ more, k2)

/-- The `newLogs` array computed inside `generateLogData`. -/
def newLogs (r : Nat → Rat) (now : Int) (trafficData : List (Option Traffic)) :
    List LogEntry :=
  (newLogsAux r now trafficData 0).1

/-- `generateLogData(trafficData, existingLogs)`: returns
`[...existingLogs, ...newLogs]`. -/
def generateLogData (r : Nat → Rat) (now : Int) (trafficData : List (Option Traffic))
    (existingLogs : List LogEntry) : List LogEntry :=
  existingLogs ++ newLogs r now trafficData

/-- `generateFlowData()`: 50 flow pairs, each side
`countries[Math.floor(Math.random() * countries.length)]`. -/
def generateFlowData (r : Nat → Rat) : List FlowPair :=
  (List.range 50).map fun i =>
    { start := countries.getD (⌊r (2 * i) * (countries.length : Rat)⌋).toNat ""
      «end» := countries.getD (⌊r (2 * i + 1) * (countries.length : Rat)⌋).toNat "" }

/-- The `LogTable` merge step: when the fresh batch is non-empty,
`[...newLogs, ...prevLogs].slice(0, 100)`, else the previous history
unchanged. -/
def mergeLogs (fresh prevLogs : List LogEntry) : List LogEntry :=
  if 0 < fresh.length then (fresh ++ prevLogs).take 100 else prevLogs

/-- The validity filter of `App.updateTrafficData`: both volumes and the
time must be present numbers. -/
def validTraffic (t : Traffic) : Bool :=
  t.inbound.isSome && t.outbound.isSome && t.time.isSome

/-- `App.updateTrafficData`'s state update: if a fresh sample exists,
`[...prevData.slice(-29), newData]` filtered for validity; otherwise the
previous window is kept. -/
def updateTrafficData (newData : Option Traffic) (prevData : List Traffic) :
    List Traffic :=
  match newData with
  | none => prevData
  | some d => ((prevData.drop (prevData.length - 29)) ++ [d]).filter validTraffic

/-- The time of the `i`-th sample of a traffic list, defaulting to 0. -/
def sampleTime (l : List Traffic) (i : Nat) : Int :=
  ((l.getD i ⟨none, none, none⟩).time).getD 0

/-! ### Helper lemmas -/

/-- Bounds of `Math.floor(r * n)` for a draw `r` in `[0, 1)`. -/
theorem floor_mul_bounds (q : Rat) (n : Nat) (h0 : 0 ≤ q) (h1 : q < 1) (hn : 0 < n) :
    0 ≤ ⌊q * (n : Rat)⌋ ∧ ⌊q * (n : Rat)⌋ < (n : Int) := by
  constructor
  · exact Int.floor_nonneg.mpr (mul_nonneg h0 (by positivity))
  · exact Int.floor_lt.mpr (by push_cast; exact mul_lt_of_lt_one_left (by exact_mod_cast hn) h1)

/-- Indexing a mapped range with a default picks out the mapped value. -/
theorem getD_range_map {α : Type} (n : Nat) (f : Nat → α) (i : Nat) (d : α) (h : i < n) :
    ((List.range n).map f).getD i d = f i := by
  rw [List.getD_eq_getElem?_getD, List.getElem?_map, List.getElem?_range h]
  rfl

/-- An in-range `getD` lookup is a member of the list. -/
theorem getD_mem_of_lt {α : Type} (l : List α) (i : Nat) (d : α) (h : i < l.length) :
    l.getD i d ∈ l := by
  rw [List.getD_eq_getElem?_getD, List.getElem?_eq_getElem h]
  exact List.getElem_mem ..

/-- The entry-generation loop produces exactly as many entries as it is asked for. -/
theorem mkLogs_length (r : Nat → Rat) (ts : Int) :
    ∀ n k, ((mkLogs r ts n k).1).length = n := by
  intro n
  induction n with
  | zero => intro k; rfl
  | succ m ih => intro k; simp [mkLogs, ih]

/-- Filtering out the `none` samples does not change the reducer's output,
because a null sample is skipped without consuming any draw. -/
theorem newLogsAux_filter_isSome (r : Nat → Rat) (now : Int) :
    ∀ (samples : List (Option Traffic)) (k : Nat),
      newLogsAux r now (samples.filter (·.isSome)) k = newLogsAux r now samples k := by
  intro samples
  induction samples with
  | nil => intro k; rfl
  | cons t rest ih =>
    intro k
    cases t with
    | none => simp [List.filter_cons, newLogsAux, genSampleLogs, ih]
    | some tr => simp [List.filter_cons, newLogsAux, ih]

/-! ### Claims -/

/-- Claim C8: the log synthesizer applied to an empty samples list returns
the existing history unchanged. -/
theorem generateLogData_empty_samples (r : Nat → Rat) (now : Int)
    (existingLogs : List LogEntry) :
    generateLogData r now [] existingLogs = existingLogs := by
  simp [generateLogData, newLogs, newLogsAux]

/-- Claim C9: null samples are skipped without error; the synthesizer's
output on any samples list equals its output on the same list with the
null samples removed. -/
theorem generateLogData_skips_null (r : Nat → Rat) (now : Int)
    (samples : List (Option Traffic)) (existingLogs : List LogEntry) :
    generateLogData r now samples existingLogs
      = generateLogData r now (samples.filter (·.isSome)) existingLogs := by
  simp [generateLogData, newLogs, newLogsAux_filter_isSome]

/-- Claim C10: a sample with a missing inbound (resp. outbound) field is
not skipped: the missing field counts as 0 and the sample still yields
exactly as many entries as its remaining defined volume. -/
theorem generateLogData_missing_field (r : Nat → Rat) (now : Int) (k : Nat)
    (i o : Nat) (t : Option Int) :
    ((genSampleLogs r now k (some ⟨none, some (o : Int), t⟩)).1).length = o
    ∧ ((genSampleLogs r now k (some ⟨some (i : Int), none, t⟩)).1).length = i
    ∧ (generateLogData r now [some ⟨none, some (o : Int), t⟩] []).length = o := by
  refine ⟨?_, ?_, ?_⟩
  · simp [genSampleLogs, mkLogs_length]
  · simp [genSampleLogs, mkLogs_length]
  · simp [generateLogData, newLogs, newLogsAux, genSampleLogs, mkLogs_length]

/-- Claim C2: a sample with both volumes present yields exactly
`inbound + outbound` log entries; in particular a single sample with
inbound 3 and outbound 2 against an empty history yields exactly 5. -/
theorem generateLogData_entry_count (r : Nat → Rat) (now : Int) (k : Nat)
    (i o : Nat) (t : Option Int) :
    ((genSampleLogs r now k (some ⟨some (i : Int), some (o : Int), t⟩)).1).length = i + o
    ∧ (generateLogData r now [some ⟨some 3, some 2, t⟩] []).length = 5 := by
  constructor
  · simp [genSampleLogs, mkLogs_length]
    omega
  · simp [generateLogData, newLogs, newLogsAux, genSampleLogs, mkLogs_length]

/-- Claim C1, counterexample: with a single sample of volume 1 and a
non-empty existing history, the synthesizer's result is not the new
entries followed by the existing history — the existing history comes
first. -/
theorem generateLogData_prepend_cex :
    generateLogData (fun _ => 0) 0 [some ⟨some 1, some 0, some 0⟩]
        [⟨0, "X", 0, "X", 0, "X", "X", 0⟩]
      ≠ newLogs (fun _ => 0) 0 [some ⟨some 1, some 0, some 0⟩]
          ++ [⟨0, "X", 0, "X", 0, "X", "X", 0⟩] := by
  intro h
  have h2 := congrArg (fun l => (l.headD ⟨0, "X", 0, "X", 0, "X", "X", 0⟩).type) h
  simp only [generateLogData, newLogs, newLogsAux, genSampleLogs, mkLogs, mkLogEntry,
    classify] at h2
  norm_num at h2
  exact absurd h2 (by decide)

/-- Claim C1, amended: the synthesizer appends the newly generated entries
after `existingLogs` — the result is the existing history followed by the
new entries, so the prefix of the result of the history's length is the
history and the rest is the fresh batch. -/
theorem generateLogData_appends (r : Nat → Rat) (now : Int)
    (samples : List (Option Traffic)) (existingLogs : List LogEntry) :
    generateLogData r now samples existingLogs
        = existingLogs ++ newLogs r now samples
    ∧ (generateLogData r now samples existingLogs).take existingLogs.length
        = existingLogs
    ∧ (generateLogData r now samples existingLogs).drop existingLogs.length
        = newLogs r now samples := by
  refine ⟨rfl, ?_, ?_⟩
  · simp [generateLogData]
  · simp [generateLogData]

/-- Claim C3: each entry's classification is driven by a single draw:
Normal exactly when the draw is below 0.6, a subtype from the 9-item
malicious catalog exactly when it lies in [0.6, 0.9), Novel pattern
exactly when it is at least 0.9; the three weights sum to 1. -/
theorem classify_three_way (r : Nat → Rat) (k : Nat)
    (h0 : 0 ≤ r k) (h1 : r k < 1) (h2 : 0 ≤ r (k + 1)) (h3 : r (k + 1) < 1) :
    ((classify r k).1 = "정상" ↔ r k < 0.6)
    ∧ ((classify r k).1 ∈ maliciousTypes ↔ (0.6 ≤ r k ∧ r k < 0.9))
    ∧ ((classify r k).1 = "새로운 패턴" ↔ 0.9 ≤ r k)
    ∧ maliciousTypes.length = 9
    ∧ ((0.6 : Rat) + 0.3 + 0.1 = 1) := by
  have hmem : maliciousTypes.getD (⌊r (k + 1) * (maliciousTypes.length : Rat)⌋).toNat ""
      ∈ maliciousTypes := by
    apply getD_mem_of_lt
    have hb := floor_mul_bounds (r (k + 1)) maliciousTypes.length h2 h3 (by decide)
    omega
  by_cases hA : r k < 0.6
  · have hc : (classify r k).1 = "정상" := by simp [classify, hA]
    rw [hc]
    refine ⟨iff_of_true rfl hA, ?_, ?_, by decide, by norm_num⟩
    · refine iff_of_false (by decide) ?_
      rintro ⟨hge, -⟩
      exact absurd hA (not_lt.mpr hge)
    · refine iff_of_false (by decide) ?_
      intro hge
      have : (0.6 : Rat) ≤ 0.9 := by norm_num
      exact absurd hA (not_lt.mpr (le_trans (le_trans this hge) (le_refl _)))
  · by_cases hB : r k < 0.9
    · have hc : (classify r k).1
          = maliciousTypes.getD (⌊r (k + 1) * (maliciousTypes.length : Rat)⌋).toNat "" := by
        simp [classify, hA, hB]
      rw [hc]
      refine ⟨?_, iff_of_true hmem ⟨not_lt.mp hA, hB⟩, ?_, by decide, by norm_num⟩
      · refine iff_of_false ?_ (fun h => hA h)
        intro h
        exact absurd (h ▸ hmem) (by decide)
      · refine iff_of_false ?_ (fun h => absurd h (not_le.mpr hB))
        intro h
        exact absurd (h ▸ hmem) (by decide)
    · have hc : (classify r k).1 = "새로운 패턴" := by simp [classify, hA, hB]
      rw [hc]
      refine ⟨iff_of_false (by decide) (fun h => hA h), ?_, iff_of_true rfl (not_lt.mp hB),
        by decide, by norm_num⟩
      refine iff_of_false (by decide) ?_
      rintro ⟨-, hlt⟩
      exact hB hlt

/-- Witness for C3 at the constant-zero draw stream. -/
theorem classify_three_way_witness :
    ((classify (fun _ => 0) 0).1 = "정상" ↔ (0 : Rat) < 0.6)
    ∧ ((classify (fun _ => 0) 0).1 ∈ maliciousTypes ↔ ((0.6 : Rat) ≤ 0 ∧ (0 : Rat) < 0.9))
    ∧ ((classify (fun _ => 0) 0).1 = "새로운 패턴" ↔ (0.9 : Rat) ≤ 0)
    ∧ maliciousTypes.length = 9
    ∧ ((0.6 : Rat) + 0.3 + 0.1 = 1) :=
  classify_three_way (fun _ => 0) 0 (le_refl 0) (by norm_num) (le_refl 0) (by norm_num)

/-- Claim C4: one merge step of the orchestration keeps the log history at
100 entries or fewer and the traffic window at 30 samples or fewer; the
log history keeps a prefix of the newest-first merged list (evicting from
the old end), and the traffic window keeps a suffix of the oldest-first
window (evicting the oldest). -/
theorem retention_bounds (fresh prevLogs : List LogEntry) (newData : Option Traffic)
    (prevData : List Traffic) (hL : prevLogs.length ≤ 100) (hT : prevData.length ≤ 30) :
    (mergeLogs fresh prevLogs).length ≤ 100
    ∧ (updateTrafficData newData prevData).length ≤ 30
    ∧ (∃ rest, fresh ++ prevLogs = mergeLogs fresh prevLogs ++ rest)
    ∧ (∃ evicted, evicted ++ prevData.drop (prevData.length - 29) = prevData) := by
  refine ⟨?_, ?_, ?_, ⟨prevData.take (prevData.length - 29), List.take_append_drop ..⟩⟩
  · unfold mergeLogs
    split
    · simp only [List.length_take]
      omega
    · exact hL
  · unfold updateTrafficData
    cases newData with
    | none => exact hT
    | some d =>
      refine le_trans (List.length_filter_le ..) ?_
      simp only [List.length_append, List.length_drop, List.length_singleton]
      omega
  · unfold mergeLogs
    split
    · exact ⟨(fresh ++ prevLogs).drop 100, (List.take_append_drop ..).symm⟩
    · rename_i hf
      have hnil : fresh = [] := List.eq_nil_of_length_eq_zero (by omega)
      subst hnil
      exact ⟨[], by simp⟩

/-- Witness for C4 on empty buffers. -/
theorem retention_bounds_witness :
    (mergeLogs [] []).length ≤ 100
    ∧ (updateTrafficData none []).length ≤ 30
    ∧ (∃ rest, ([] : List LogEntry) ++ [] = mergeLogs [] [] ++ rest)
    ∧ (∃ evicted, evicted ++ ([] : List Traffic).drop (([] : List Traffic).length - 29)
        = ([] : List Traffic)) :=
  retention_bounds [] [] none [] (by decide) (by decide)

/-- Claim C5: the traffic generator returns exactly `count.toNat` samples
with consecutive timestamps exactly 2000 ms apart (hence strictly
increasing), the last timestamp equals `now`, the default count is 30,
and a nonpositive count yields the empty list. -/
theorem generateTrafficData_spec (r : Nat → Rat) (now count : Int) :
    (generateTrafficData r now count).length = count.toNat
    ∧ (∀ i : Nat, i + 1 < count.toNat →
        sampleTime (generateTrafficData r now count) (i + 1)
          = sampleTime (generateTrafficData r now count) i + 2000)
    ∧ (∀ i : Nat, i + 1 < count.toNat →
        sampleTime (generateTrafficData r now count) i
          < sampleTime (generateTrafficData r now count) (i + 1))
    ∧ (0 < count →
        sampleTime (generateTrafficData r now count) (count.toNat - 1) = now)
    ∧ generateTrafficDataDefault r now = generateTrafficData r now 30
    ∧ (count ≤ 0 → generateTrafficData r now count = []) := by
  have key : ∀ i : Nat, i < count.toNat →
      sampleTime (generateTrafficData r now count) i
        = now - (count - 1 - (i : Int)) * 2000 := by
    intro i hi
    unfold sampleTime generateTrafficData
    rw [getD_range_map _ _ _ _ hi]
    rfl
  refine ⟨by simp [generateTrafficData], ?_, ?_, ?_, rfl, ?_⟩
  · intro i hi
    rw [key (i + 1) hi, key i (by omega)]
    push_cast
    ring
  · intro i hi
    rw [key (i + 1) hi, key i (by omega)]
    push_cast
    linarith
  · intro hc
    rw [key (count.toNat - 1) (by omega)]
    have hcast : ((count.toNat - 1 : Nat) : Int) = count - 1 := by omega
    rw [hcast]
    ring
  · intro hc
    unfold generateTrafficData
    simp [Int.toNat_eq_zero.mpr hc]

/-- Witness for C5 at `count = 2` and `count = -1`. -/
theorem generateTrafficData_spec_witness :
    (sampleTime (generateTrafficData (fun _ => 0) 0 2) (0 + 1)
        = sampleTime (generateTrafficData (fun _ => 0) 0 2) 0 + 2000)
    ∧ (sampleTime (generateTrafficData (fun _ => 0) 0 2) 0
        < sampleTime (generateTrafficData (fun _ => 0) 0 2) (0 + 1))
    ∧ (sampleTime (generateTrafficData (fun _ => 0) 0 2) ((2 : Int).toNat - 1) = 0)
    ∧ generateTrafficData (fun _ => 0) 0 (-1) = [] :=
  ⟨(generateTrafficData_spec (fun _ => 0) 0 2).2.1 0 (by decide),
   (generateTrafficData_spec (fun _ => 0) 0 2).2.2.1 0 (by decide),
   (generateTrafficData_spec (fun _ => 0) 0 2).2.2.2.1 (by decide),
   (generateTrafficData_spec (fun _ => 0) 0 (-1)).2.2.2.2.2 (by decide)⟩

/-- Claim C6: every generated traffic sample carries integer inbound and
outbound volumes in `[0, 30)`, provided every draw lies in `[0, 1)`. -/
theorem generateTrafficData_volume_range (r : Nat → Rat) (now count : Int)
    (hr : ∀ i, 0 ≤ r i ∧ r i < 1) :
    ∀ s ∈ generateTrafficData r now count, ∃ a b : Int,
      s.inbound = some a ∧ s.outbound = some b
      ∧ 0 ≤ a ∧ a < 30 ∧ 0 ≤ b ∧ b < 30 := by
  intro s hs
  simp only [generateTrafficData, List.mem_map, List.mem_range] at hs
  obtain ⟨i, hi, rfl⟩ := hs
  have h1 := floor_mul_bounds (r (2 * i)) 30 (hr (2 * i)).1 (hr (2 * i)).2 (by decide)
  have h2 := floor_mul_bounds (r (2 * i + 1)) 30 (hr (2 * i + 1)).1 (hr (2 * i + 1)).2 (by decide)
  push_cast at h1 h2
  exact ⟨_, _, rfl, rfl, h1.1, h1.2, h2.1, h2.2⟩

/-- Witness for C6 with one sample from the constant-zero stream. -/
theorem generateTrafficData_volume_range_witness :
    ∃ a b : Int,
      (Traffic.mk (some 0) (some 0) (some 0)).inbound = some a
      ∧ (Traffic.mk (some 0) (some 0) (some 0)).outbound = some b
      ∧ 0 ≤ a ∧ a < 30 ∧ 0 ≤ b ∧ b < 30 :=
  generateTrafficData_volume_range (fun _ => 0) 0 1 (fun _ => ⟨le_refl 0, zero_lt_one⟩)
    ⟨some 0, some 0, some 0⟩ (by simp only [generateTrafficData]; norm_num)

/-- Claim C7: the flow generator always returns exactly 50 pairs, and both
country codes of every pair belong to the fixed 10-element catalog,
provided every draw lies in `[0, 1)`. -/
theorem generateFlowData_spec (r : Nat → Rat) (hr : ∀ i, 0 ≤ r i ∧ r i < 1) :
    (generateFlowData r).length = 50
    ∧ countries.length = 10
    ∧ ∀ p ∈ generateFlowData r, p.start ∈ countries ∧ p.«end» ∈ countries := by
  refine ⟨by simp [generateFlowData], by decide, ?_⟩
  intro p hp
  simp only [generateFlowData, List.mem_map, List.mem_range] at hp
  obtain ⟨i, hi, rfl⟩ := hp
  constructor
  · apply getD_mem_of_lt
    have hb := floor_mul_bounds (r (2 * i)) countries.length (hr _).1 (hr _).2 (by decide)
    omega
  · apply getD_mem_of_lt
    have hb := floor_mul_bounds (r (2 * i + 1)) countries.length (hr _).1 (hr _).2 (by decide)
    omega

/-- Witness for C7 at the constant-zero draw stream. -/
theorem generateFlowData_spec_witness :
    (generateFlowData (fun _ => 0)).length = 50
    ∧ ((FlowPair.mk "KR" "KR").start ∈ countries
        ∧ (FlowPair.mk "KR" "KR").«end» ∈ countries) := by
  have h := generateFlowData_spec (fun _ => 0) (fun _ => ⟨le_refl 0, zero_lt_one⟩)
  refine ⟨h.1, h.2.2 ⟨"KR", "KR"⟩ ?_⟩
  simp only [generateFlowData, countries]
  exact List.mem_map.mpr ⟨0, List.mem_range.mpr (by norm_num), by norm_num⟩
